import Mathlib

/-!
Verification development for the `grub_install` target/platform installation
engine (`_target.py`, `_util.py`).  Pure functions below are shallow embeddings
of the Python source; file and device contents are modelled as lists of bytes
(`Nat`), fallible code returns `Except`, and the possibly non-terminating
verification loop is modelled with an explicit fuel parameter.
-/

set_option maxRecDepth 2048

namespace GrubInstall

/-- A byte, modelled as a natural number (0..255 in every use below). -/
abbrev Byte := Nat

/-- Python slice `l[i:j]` (clamping semantics). -/
def pySlice (l : List Byte) (i j : Nat) : List Byte := (l.take j).drop i

/-- Python slice assignment `l[s:e] = repl` on a bytearray: the elements of the
half-open range `[s, e)` are replaced by `repl` (which may have any length). -/
def spliceAssign (l : List Byte) (s e : Nat) (repl : List Byte) : List Byte :=
  l.take s ++ repl ++ l.drop e

/-- Modelled from the spec: canonical disk sector size (`Grub.DISK_SECTOR_SIZE`
from the repository's `_handy` module, which is not part of the given sources);
the spec calls it one disk sector, a canonical size constant. -/
def DISK_SECTOR_SIZE : Nat := 512

/-- Modelled from the spec: start of the BPB-compatible region of the boot
sector (`Grub.BOOT_MACHINE_BPB_START`, from the missing `_handy` module). -/
def BOOT_MACHINE_BPB_START : Nat := 0x3

/-- Modelled from the spec: end of the BPB-compatible region
(`Grub.BOOT_MACHINE_BPB_END`, from the missing `_handy` module). -/
def BOOT_MACHINE_BPB_END : Nat := 0x5a

/-- Modelled from the spec: offset of the 2-byte drive-check patch point
(`Grub.BOOT_MACHINE_DRIVE_CHECK`, from the missing `_handy` module). -/
def BOOT_MACHINE_DRIVE_CHECK : Nat := 0x66

/-- Modelled from the spec: offset of the NT signature
(`Grub.BOOT_MACHINE_WINDOWS_NT_MAGIC`, from the missing `_handy` module). -/
def BOOT_MACHINE_WINDOWS_NT_MAGIC : Nat := 0x1b8

/-- Modelled from the spec: end offset of the partition-table area
(`Grub.BOOT_MACHINE_PART_END`, from the missing `_handy` module). -/
def BOOT_MACHINE_PART_END : Nat := 0x1fe

/-- Embedding of `_Bios._getMbrGapSizeThreshold` (source `_target.py`): `512 * 1024`. -/
def getMbrGapSizeThreshold : Nat := 512 * 1024

/-- Embedding of `PlatformInstallInfo.Status` — modelled from the spec (the `_const` module
is not part of the given sources): NOT_EXIST / EXIST / BOOTABLE. -/
inductive Status where
  | NOT_EXIST
  | EXIST
  | BOOTABLE
deriving DecidableEq

/-- Embedding of `PlatformInstallInfo` — modelled from the spec (`_const` module missing):
a status plus optional BIOS-only (`mbr_installed`, `allow_floppy`, `rs_codes`)
and EFI-only (`removable`, `nvram`) fields; `none` models an attribute that was
never assigned on the Python object. -/
structure PlatformInstallInfo where
  status : Status := Status.NOT_EXIST
  mbr_installed : Option Bool := none
  allow_floppy : Option Bool := none
  rs_codes : Option Bool := none
  removable : Option Bool := none
  nvram : Option Bool := none
deriving DecidableEq

/-- Embedding of `PlatformType` — modelled from the spec (`_const` module missing): a closed
enumeration of firmware/architecture combinations: BIOS-PC, several EFI
architectures, multiboot, coreboot, qemu, and a MIPS variant. -/
inductive PlatformType where
  | i386_pc
  | i386_efi
  | x86_64_efi
  | arm64_efi
  | i386_multiboot
  | i386_coreboot
  | i386_qemu
  | mipsel_loongson
deriving DecidableEq

/-- Modelled from the spec: each platform maps to a canonical on-disk
directory name (the Python enumeration's `.value`). -/
def platformValue : PlatformType → String
  | .i386_pc => "i386-pc"
  | .i386_efi => "i386-efi"
  | .x86_64_efi => "x86_64-efi"
  | .arm64_efi => "arm64-efi"
  | .i386_multiboot => "i386-multiboot"
  | .i386_coreboot => "i386-coreboot"
  | .i386_qemu => "i386-qemu"
  | .mipsel_loongson => "mipsel-loongson"

/-- All members of the `PlatformType` enumeration, in declaration order. -/
def platformTypes : List PlatformType :=
  [.i386_pc, .i386_efi, .x86_64_efi, .arm64_efi,
   .i386_multiboot, .i386_coreboot, .i386_qemu, .mipsel_loongson]

/-- Modelled from the spec: `Handy.isPlatformEfi` (missing `_handy` module) —
whether a platform is one of the EFI architectures. -/
def isPlatformEfi : PlatformType → Bool
  | .i386_efi => true
  | .x86_64_efi => true
  | .arm64_efi => true
  | _ => false

/-- Modelled from the spec: `Handy.isPlatformCoreboot` (missing `_handy`
module). -/
def isPlatformCoreboot : PlatformType → Bool
  | .i386_coreboot => true
  | _ => false

/-- Modelled from the spec: `Handy.isPlatformQemu` (missing `_handy`
module). -/
def isPlatformQemu : PlatformType → Bool
  | .i386_qemu => true
  | _ => false

/-- Modelled from the spec: `Handy.getStandardEfiFilename` (missing `_handy`
module) — the firmware-mandated removable-media file name for an EFI
platform (e.g. `BOOTX64.EFI`). -/
def standardEfiFilename : PlatformType → String
  | .i386_efi => "BOOTIA32.EFI"
  | .x86_64_efi => "BOOTX64.EFI"
  | .arm64_efi => "BOOTAA64.EFI"
  | _ => "BOOT.EFI"

/-- Embedding of `TargetType` — modelled from the spec (`_const` module missing). -/
inductive TargetType where
  | MOUNTED_HDD_DEV
  | PYCDLIB_OBJ
  | ISO_DIR
deriving DecidableEq

/-- Embedding of `TargetAccessMode` — modelled from the spec (`_const` module missing). -/
inductive TargetAccessMode where
  | R
  | W
  | RW
deriving DecidableEq

/-! ## BIOS state verification (`_Bios.check_and_fill_platform_install_info`) -/

/-- Inputs of the BIOS verification: the contents of `<boot>/grub/boot.img`
and `<boot>/grub/core.img` (`none` if the file does not exist) and the raw
bytes readable from the block device, starting at offset 0. -/
structure BiosCheckInput where
  bootImg : Option (List Byte)
  coreImg : Option (List Byte)
  dev : List Byte
deriving DecidableEq

/-- Outcome of one pass through the body of the `while True:` loop of
`_Bios.check_and_fill_platform_install_info`: either some check failed and the
body hit a `break` (with `bOk` still `False`), or the body ran to its end,
set `bOk = True` with the given `bAllowFloppy` value — and, the loop having no
`break` on that path, iterates again. -/
inductive BodyOutcome where
  | broke
  | completed (allowFloppy : Bool)
deriving DecidableEq

/-- The body of the `while True:` loop of
`_Bios.check_and_fill_platform_install_info` (source `_target.py` lines
354-394), translated check for check.  `tmpBuf` is the first sector read from
the device; the second device read (for the core image comparison) continues
at offset `DISK_SECTOR_SIZE`. -/
def biosCheckBody (i : BiosCheckInput) : BodyOutcome :=
  match i.bootImg with
  | none => .broke
  | some bootBuf =>
    if bootBuf.length ≠ DISK_SECTOR_SIZE then .broke
    else
      match i.coreImg with
      | none => .broke
      | some coreBuf =>
        if ¬ (DISK_SECTOR_SIZE ≤ coreBuf.length ∧ coreBuf.length ≤ getMbrGapSizeThreshold) then
          .broke
        else
          let tmpBuf := i.dev.take DISK_SECTOR_SIZE
          if tmpBuf.take BOOT_MACHINE_BPB_START ≠ bootBuf.take BOOT_MACHINE_BPB_START then .broke
          else if pySlice tmpBuf BOOT_MACHINE_BPB_END BOOT_MACHINE_DRIVE_CHECK ≠
                  pySlice bootBuf BOOT_MACHINE_BPB_END BOOT_MACHINE_DRIVE_CHECK then .broke
          else
            let dc := pySlice tmpBuf BOOT_MACHINE_DRIVE_CHECK (BOOT_MACHINE_DRIVE_CHECK + 2)
            let afOpt : Option Bool :=
              if dc = [0x90, 0x90] then some false
              else if dc ≠ pySlice bootBuf BOOT_MACHINE_DRIVE_CHECK (BOOT_MACHINE_DRIVE_CHECK + 2) then
                none
              else some true
            match afOpt with
            | none => .broke
            | some af =>
              if pySlice tmpBuf (BOOT_MACHINE_DRIVE_CHECK + 2) BOOT_MACHINE_WINDOWS_NT_MAGIC ≠
                 pySlice bootBuf (BOOT_MACHINE_DRIVE_CHECK + 2) BOOT_MACHINE_WINDOWS_NT_MAGIC then .broke
              else if tmpBuf.drop BOOT_MACHINE_PART_END ≠ bootBuf.drop BOOT_MACHINE_PART_END then .broke
              else if coreBuf ≠ (i.dev.drop DISK_SECTOR_SIZE).take coreBuf.length then .broke
              else .completed af

/-- The `while True:` loop of `_Bios.check_and_fill_platform_install_info`
together with the code after it.  The file system and device do not change
while the function runs, so every iteration of the body gives the same
outcome: a `break` (only reachable with `bOk = False`) is followed by the
downgrade to `EXIST`; a completed body — the source has no `break` after
`bOk = True` — starts the next iteration.  `fuel` bounds the number of
iterations; `none` means the function has not returned within `fuel`
iterations. -/
def biosCheckLoop : Nat → BiosCheckInput → PlatformInstallInfo → Option PlatformInstallInfo
  | 0, _, _ => none
  | fuel + 1, i, info =>
    match biosCheckBody i with
    | .broke => some { info with status := Status.EXIST }
    | .completed _ => biosCheckLoop fuel i info

/-- All checks of the BIOS verification body except the two drive-check
comparisons, as one boolean: sizes in range and every compared device region
other than the 2-byte drive-check region equal to the stored boot/core
images. -/
def nonDriveCheckPass (bootBuf coreBuf dev : List Byte) : Bool :=
  decide (bootBuf.length = DISK_SECTOR_SIZE) &&
  decide (DISK_SECTOR_SIZE ≤ coreBuf.length) &&
  decide (coreBuf.length ≤ getMbrGapSizeThreshold) &&
  decide ((dev.take DISK_SECTOR_SIZE).take BOOT_MACHINE_BPB_START =
          bootBuf.take BOOT_MACHINE_BPB_START) &&
  decide (pySlice (dev.take DISK_SECTOR_SIZE) BOOT_MACHINE_BPB_END BOOT_MACHINE_DRIVE_CHECK =
          pySlice bootBuf BOOT_MACHINE_BPB_END BOOT_MACHINE_DRIVE_CHECK) &&
  decide (pySlice (dev.take DISK_SECTOR_SIZE) (BOOT_MACHINE_DRIVE_CHECK + 2) BOOT_MACHINE_WINDOWS_NT_MAGIC =
          pySlice bootBuf (BOOT_MACHINE_DRIVE_CHECK + 2) BOOT_MACHINE_WINDOWS_NT_MAGIC) &&
  decide ((dev.take DISK_SECTOR_SIZE).drop BOOT_MACHINE_PART_END =
          bootBuf.drop BOOT_MACHINE_PART_END) &&
  decide (coreBuf = (dev.drop DISK_SECTOR_SIZE).take coreBuf.length)

/-- The 2-byte drive-check region of the first device sector. -/
def devDriveCheck (dev : List Byte) : List Byte :=
  pySlice (dev.take DISK_SECTOR_SIZE) BOOT_MACHINE_DRIVE_CHECK (BOOT_MACHINE_DRIVE_CHECK + 2)

/-- The 2-byte drive-check region of the stored `boot.img`. -/
def bootDriveCheck (bootBuf : List Byte) : List Byte :=
  pySlice bootBuf BOOT_MACHINE_DRIVE_CHECK (BOOT_MACHINE_DRIVE_CHECK + 2)

/-! ## BIOS installation (`_Bios._isValidDisk`, `_Bios.install_platform`) -/

/-- A block device as seen by `_Bios`: its path, the partition-table view
reported by the external `parted` library (disk label type, the `geometry.start`
sector of each primary partition, the device sector size), and its raw
bytes. -/
structure DiskDev where
  path : List Char
  diskType : String
  partitionStarts : List Nat
  sectorSize : Nat
  bytes : List Byte

/-- Embedding of `re.fullmatch(".*[0-9]+$", dev)` for a (newline-free) device path:
the path is nonempty and its last character is a decimal digit. -/
def endsWithDigit (s : List Char) : Bool :=
  match s.getLast? with
  | none => false
  | some c => c.isDigit

/-- Embedding of `_Bios._isValidDisk` (source `_target.py` lines 469-482), translated check
for check.  `Except.error` models a raised exception; the subscript
`pPartiList[0]` on a list that the previous check has just required to be
empty is the `IndexError` case. -/
def isValidDisk (d : DiskDev) : Except String Bool :=
  if ¬ endsWithDigit d.path then .ok false
  else if d.diskType ≠ "msdos" then .ok false
  else if d.partitionStarts.length > 0 then .ok false
  else
    match d.partitionStarts.head? with
    | none => .error ("IndexError")
    | some start =>
      if start * d.sectorSize < getMbrGapSizeThreshold then .ok false
      else .ok true

/-- Embedding of `_Bios.install_platform` (source `_target.py` lines 405-459).  Returns the
sequence of byte strings written to the block device (in order) together with
the result: `Except.error` models a raised exception (including a failed
`assert`), `Except.ok` the updated `PlatformInstallInfo`.  `srcBootImg` is the
content of `boot.img` in the source payload (copied to the boot directory
first), `coreImgOnDisk` the content of `<boot>/grub/core.img` (`none` if the
file does not exist). -/
def bios_install_platform (info : PlatformInstallInfo) (srcBootImg : List Byte)
    (coreImgOnDisk : Option (List Byte)) (d : DiskDev)
    (bInstallMbr bFloppyOrHdd bAllowFloppy bAddRsCodes : Bool) :
    List (List Byte) × Except String PlatformInstallInfo :=
  match isValidDisk d with
  | .error e => ([], .error e)
  | .ok false => ([], .error ("AssertionError: not _isValidDisk(dev)"))
  | .ok true =>
    if bFloppyOrHdd ∨ bAllowFloppy ∨ bAddRsCodes then
      ([], .error ("AssertionError: flags"))
    else if ¬ bInstallMbr then
      ([], .ok { info with
                   mbr_installed := some bInstallMbr,
                   allow_floppy := some bAllowFloppy,
                   rs_codes := some bAddRsCodes })
    else
      if srcBootImg.length ≠ DISK_SECTOR_SIZE then
        ([], .error ("the size of boot.img is not DISK_SECTOR_SIZE"))
      else
        match coreImgOnDisk with
        | none => ([], .error ("FileNotFoundError: core.img"))
        | some coreBuf =>
          if coreBuf.length < DISK_SECTOR_SIZE then
            ([], .error ("the size of core.img is too small"))
          else if coreBuf.length > getMbrGapSizeThreshold then
            ([], .error ("the size of core.img is too large"))
          else
            let tmpBuf := d.bytes.take DISK_SECTOR_SIZE
            let b1 := spliceAssign srcBootImg BOOT_MACHINE_BPB_START BOOT_MACHINE_BPB_END
                        (pySlice tmpBuf BOOT_MACHINE_BPB_START BOOT_MACHINE_BPB_END)
            let b2 := if ¬ bAllowFloppy ∧ ¬ bFloppyOrHdd then
                        (b1.set BOOT_MACHINE_DRIVE_CHECK 0x90).set (BOOT_MACHINE_DRIVE_CHECK + 1) 0x90
                      else b1
            let b3 := if ¬ bAllowFloppy ∧ ¬ bFloppyOrHdd then
                        spliceAssign b2 BOOT_MACHINE_WINDOWS_NT_MAGIC BOOT_MACHINE_PART_END
                          (pySlice tmpBuf BOOT_MACHINE_WINDOWS_NT_MAGIC BOOT_MACHINE_PART_END)
                      else b2
            ([b3, coreBuf],
             .ok { info with
                     mbr_installed := some bInstallMbr,
                     allow_floppy := some bAllowFloppy,
                     rs_codes := some bAddRsCodes })

/-- Embedding of `Target.install_platform` (source `_target.py` lines 111-149) specialised
to a `MOUNTED_HDD_DEV` target and the `I386_PC` platform.  `existing` is
`get_platform_install_info(platform_type)` for the current map;
`commonResult` abstracts the outcome of `_Common.install_platform` (mount
probing, file copying and core-image generation, all writing only under the
boot directory); `allowFloppyArg`/`rsCodesArg` are the optional keyword
arguments, resolved exactly as `kwargs.get("allow_floppy", False)` and
`kwargs.get("rs_codes", True)`. -/
def target_install_platform_i386_pc (mode : TargetAccessMode)
    (existing : PlatformInstallInfo) (commonResult : Except String Unit)
    (srcBootImg : List Byte) (coreImgOnDisk : Option (List Byte)) (d : DiskDev)
    (allowFloppyArg rsCodesArg : Option Bool) :
    List (List Byte) × Except String PlatformInstallInfo :=
  if mode = TargetAccessMode.R then ([], .error ("AssertionError: mode"))
  else if existing.status = Status.BOOTABLE then
    ([], .error ("AssertionError: already BOOTABLE"))
  else
    match commonResult with
    | .error e => ([], .error e)
    | .ok _ =>
      bios_install_platform { status := Status.BOOTABLE } srcBootImg coreImgOnDisk d
        true false (allowFloppyArg.getD false) (rsCodesArg.getD true)

/-! ## The Target's platform map -/

/-- The `Target._platforms` dictionary, as an association list. -/
abbrev PlatformMap := List (PlatformType × PlatformInstallInfo)

/-- Embedding of `platform_type in self._platforms`. -/
def hasPlatform (m : PlatformMap) (pt : PlatformType) : Bool :=
  (m.find? fun e => decide (e.1 = pt)).isSome

/-- Embedding of `self._platforms[platform_type] = v` (insert or replace). -/
def setPlatform (m : PlatformMap) (pt : PlatformType) (v : PlatformInstallInfo) : PlatformMap :=
  (m.filter fun e => decide (e.1 ≠ pt)) ++ [(pt, v)]

/-- Embedding of `del self._platforms[platform_type]` (no-op when the key is absent, as in
the guarded `del` of the source). -/
def delPlatform (m : PlatformMap) (pt : PlatformType) : PlatformMap :=
  m.filter fun e => decide (e.1 ≠ pt)

/-- Embedding of `Target.get_platform_install_info` (source `_target.py` lines 101-109):
the stored record, or a fresh record with status `NOT_EXIST` when the platform
has no entry.  A total function: the source never raises here. -/
def get_platform_install_info (m : PlatformMap) (pt : PlatformType) : PlatformInstallInfo :=
  match m.find? fun e => decide (e.1 = pt) with
  | some e => e.2
  | none => { status := Status.NOT_EXIST }

/-- Embedding of `_Common.init_platforms` (source `_target.py` lines 249-257): for each
entry name of `<boot>/grub`, each platform whose canonical directory name
equals that entry is seeded with a provisional BOOTABLE record. -/
def init_platforms (dirs : List String) : PlatformMap :=
  dirs.foldl
    (fun m fn =>
      platformTypes.foldl
        (fun m2 pt =>
          if platformValue pt = fn then setPlatform m2 pt { status := Status.BOOTABLE }
          else m2)
        m)
    []

/-- Whether the construction-time scan found a directory matching the
platform. -/
def scanFound (dirs : List String) (pt : PlatformType) : Bool :=
  dirs.any fun fn => decide (platformValue pt = fn)

/-- A completed (non-raising) map-mutating operation on a `Target`: a
successful `install_platform` (which stores a fresh record as its final
statement) or a completed `remove_platform` (which deletes the entry as its
final statement).  An operation that raises leaves the map unchanged, because
both methods mutate the map only after all other work succeeded. -/
inductive TargetOp where
  | installOp (pt : PlatformType) (v : PlatformInstallInfo)
  | removeOp (pt : PlatformType)

/-- Effect of a completed operation on the platform map. -/
def applyOp (m : PlatformMap) : TargetOp → PlatformMap
  | .installOp pt v => setPlatform m pt v
  | .removeOp pt => delPlatform m pt

/-- Effect of a sequence of completed operations, oldest first. -/
def applyOps (m : PlatformMap) : List TargetOp → PlatformMap
  | [] => m
  | op :: rest => applyOps (applyOp m op) rest

/-- Whether an operation concerns the given platform. -/
def opOn (op : TargetOp) (pt : PlatformType) : Bool :=
  match op with
  | .installOp q _ => decide (q = pt)
  | .removeOp q => decide (q = pt)

/-- Whether an operation is an install. -/
def isInstall : TargetOp → Bool
  | .installOp _ _ => true
  | .removeOp _ => false

/-- The most recent operation of the sequence that concerns the given
platform, if any. -/
def lastOpOn : List TargetOp → PlatformType → Option TargetOp
  | [], _ => none
  | op :: rest, pt =>
    match lastOpOn rest pt with
    | some r => some r
    | none => if opOn op pt then some op else none

/-- Whether some install of the given platform occurs in the sequence. -/
def installEverCompleted (ops : List TargetOp) (pt : PlatformType) : Bool :=
  ops.any fun op => isInstall op && opOn op pt

/-- C9 as stated: an entry exists in the map iff a matching directory was
found at the construction-time scan or an install of that platform completed
— for every scan result and every sequence of operations. -/
def mapEntryClaimAsStated : Prop :=
  ∀ (dirs : List String) (ops : List TargetOp) (pt : PlatformType),
    hasPlatform (applyOps (init_platforms dirs) ops) pt = true ↔
      (scanFound dirs pt = true ∨ installEverCompleted ops pt = true)

/-! ## EFI verification and removal (`_Efi`, `_util`) -/

/-- Embedding of `compare_files` (source `_util.py` lines 74-77), i.e.
`filecmp.cmp(f1, f2, shallow=False)` on two existing regular files:
byte-for-byte content equality. -/
def compare_files (buf1 buf2 : List Byte) : Bool :=
  decide (buf1 = buf2)

/-- Embedding of `_Efi.check_and_fill_platform_install_info` (source `_target.py` lines
489-509).  `coreFile` is the content of
`<boot>/grub/<platform>/<core-image-name>` and `efiFile` the content of
`<boot>/EFI/BOOT/<standard-name>`; `none` means the file does not exist.
`Except.error` models a raised exception: the entry `assert`, or the
`FileNotFoundError` that `compare_files` raises when the core image is
missing while the installed file exists. -/
def efi_check_and_fill_platform_install_info (coreFile efiFile : Option (List Byte))
    (info : PlatformInstallInfo) : Except String PlatformInstallInfo :=
  if info.status ≠ Status.BOOTABLE then .error ("AssertionError: status")
  else
    match efiFile with
    | none => .ok { info with status := Status.EXIST }
    | some efiBuf =>
      match coreFile with
      | none => .error ("FileNotFoundError: core image")
      | some coreBuf =>
        if compare_files coreBuf efiBuf then
          .ok { info with removable := some true, nvram := some false }
        else
          .ok { info with status := Status.EXIST }

/-- The parts of the boot directory that `remove_platform` touches: the
`EFI/BOOT` directory (`none` = does not exist, otherwise its entry names),
the other entries of the `EFI` directory (`none` = `EFI` does not exist), and
the per-platform directories under `grub`. -/
structure BootDirFs where
  efiBootDir : Option (List String)
  efiDirOtherEntries : Option (List String)
  grubPlatformDirs : List String

/-- Embedding of `rmdir_if_empty` (source `_util.py` lines 64-66): `os.listdir(path)`
raises `FileNotFoundError` when the directory does not exist; otherwise the
directory is removed only when it has no entries. -/
def rmdir_if_empty (dir : Option (List String)) : Except String (Option (List String)) :=
  match dir with
  | none => .error ("FileNotFoundError")
  | some entries => if entries.isEmpty then .ok none else .ok (some entries)

/-- Embedding of `_Efi.remove_platform` (source `_target.py` lines 532-545): `force_rm` of
the standard-named file (a no-op when absent), then `rmdir_if_empty` on
`EFI/BOOT`, then `rmdir_if_empty` on `EFI`. -/
def efi_remove_platform (efiFn : String) (fs : BootDirFs) : Except String BootDirFs :=
  let fs1 : BootDirFs := { fs with efiBootDir := fs.efiBootDir.map (·.erase efiFn) }
  match rmdir_if_empty fs1.efiBootDir with
  | .error e => .error e
  | .ok bootDir =>
    let fs2 : BootDirFs := { fs1 with efiBootDir := bootDir }
    match fs2.efiDirOtherEntries with
    | none => .error ("FileNotFoundError")
    | some others =>
      let efiEntries := (if fs2.efiBootDir.isSome then ["BOOT"] else []) ++ others
      if efiEntries.isEmpty then .ok { fs2 with efiDirOtherEntries := none }
      else .ok fs2

/-- Embedding of `_Common.remove_platform` (source `_target.py` lines 316-319): `force_rm`
of the per-platform directory under `grub` (total, absent path is a no-op). -/
def common_remove_platform (fs : BootDirFs) (pt : PlatformType) : BootDirFs :=
  { fs with grubPlatformDirs := fs.grubPlatformDirs.erase (platformValue pt) }

/-- Embedding of `Target.remove_platform` (source `_target.py` lines 151-172): the mode
assertion, the per-target-type dispatch into `_Bios`/`_Efi`/`_Common`
removal, and the final guarded `del` on the map.  `Except.error` models a
raised exception, in which case the map is unchanged (the `del` is the last
statement). -/
def target_remove_platform (mode : TargetAccessMode) (tt : TargetType)
    (pt : PlatformType) (m : PlatformMap) (fs : BootDirFs) :
    Except String (PlatformMap × BootDirFs) :=
  if mode = TargetAccessMode.R then .error ("AssertionError: mode")
  else
    match tt with
    | .MOUNTED_HDD_DEV =>
      if pt = PlatformType.i386_pc then
        .ok (delPlatform m pt, common_remove_platform fs pt)
      else if isPlatformEfi pt then
        match efi_remove_platform (standardEfiFilename pt) fs with
        | .error e => .error e
        | .ok fs1 => .ok (delPlatform m pt, common_remove_platform fs1 pt)
      else .error ("AssertionError")
    | .PYCDLIB_OBJ => .error ("AssertionError")
    | .ISO_DIR => .ok (delPlatform m pt, common_remove_platform fs pt)

/-! ## Module-list derivation (`_Common.install_platform`) -/

/-- The `disk_module` selection of `_Common.install_platform` (source
`_target.py` lines 270-282). -/
def disk_module (pt : PlatformType) : Option String :=
  if pt = PlatformType.i386_pc then some ("biosdisk")
  else if pt = PlatformType.i386_multiboot then some ("native")
  else if isPlatformCoreboot pt then some ("native")
  else if isPlatformQemu pt then some ("native")
  else if pt = PlatformType.mipsel_loongson then some ("native")
  else none

/-- The module list assembled by `_Common.install_platform` (source
`_target.py` lines 268-309): the disk modules, then — after the EFI
filesystem check — the filesystem module for the probed mount filesystem,
then `search_fs_uuid` (appended while `load.cfg` is written).
`getGrubFsName` abstracts the external `Grub.getGrubFsName` mapping;
`fsUuid`/`fs` are the probed mount's UUID and filesystem type.
`Except.error` models the raised exceptions (no UUID; EFI target whose boot
directory is not on a vfat filesystem). -/
def common_module_list (getGrubFsName : String → String) (fsUuid : Option String)
    (fs : String) (pt : PlatformType) : Except String (List String) :=
  match fsUuid with
  | none => .error ("mnt.fs_uuid is None")
  | some _ =>
    let moduleList : List String :=
      match disk_module pt with
      | none => []
      | some dm =>
        if dm = "biosdisk" then ["biosdisk"]
        else if dm = "native" then ["pata", "ahci", "ohci", "uhci", "ehci", "ubms"]
        else []
    if isPlatformEfi pt = true ∧ fs ≠ "vfat" then
      .error ("does not look like an EFI partition")
    else
      .ok (moduleList ++ [getGrubFsName fs, "search_fs_uuid"])

/-! ## Concrete inputs used by counterexamples and failing-input theorems -/

/-- A stored `boot.img` whose own drive-check bytes are `0x90 0x90`: one
sector of `0x90` bytes. -/
def cxBootImg : List Byte := List.replicate 512 0x90

/-- A core image of one sector of `0x37` bytes. -/
def cxCoreImg : List Byte := List.replicate 512 0x37

/-- A device whose first sector equals `cxBootImg` and whose following bytes
equal `cxCoreImg`. -/
def cxDev : List Byte := cxBootImg ++ cxCoreImg

/-- A stored `boot.img` with ordinary (non-`0x90`) drive-check bytes: one
sector of `0x41` bytes. -/
def allPassBootImg : List Byte := List.replicate 512 0x41

/-- A core image of 600 `0x42` bytes (within `[512, 512*1024]`). -/
def allPassCoreImg : List Byte := List.replicate 600 0x42

/-- A device on which every BIOS verification check passes: first sector equal
to `allPassBootImg`, followed by `allPassCoreImg`. -/
def allPassDev : List Byte := allPassBootImg ++ allPassCoreImg

/-- The BIOS verification input on which every check passes. -/
def allPassInput : BiosCheckInput :=
  { bootImg := some allPassBootImg, coreImg := some allPassCoreImg, dev := allPassDev }

/-! ## Helper lemmas -/

/-- The source check `_Bios._isValidDisk` accepts no device at all: its first check requires
the path to end in a digit, a device that passes it and the `msdos` check must
then have no primary partitions, and the subsequent `pPartiList[0]` subscript
on that empty list raises `IndexError` before `True` can be returned. -/
theorem isValidDisk_never_accepts (d : DiskDev) : isValidDisk d ≠ Except.ok true := by
  unfold isValidDisk
  split_ifs with h1 h2 h3 <;> try simp
  have hnil : d.partitionStarts = [] := List.length_eq_zero.mp (Nat.eq_zero_of_not_pos h3)
  rw [hnil]
  simp

/-- Consequently `_Bios.install_platform` always raises before writing any
byte to the device: the entry assertion `assert _Bios._isValidDisk(dev)`
either raises out of `_isValidDisk` or fails. -/
theorem bios_install_always_errors (info : PlatformInstallInfo) (srcBootImg : List Byte)
    (coreImgOnDisk : Option (List Byte)) (d : DiskDev) (f1 f2 f3 f4 : Bool) :
    (bios_install_platform info srcBootImg coreImgOnDisk d f1 f2 f3 f4).1 = [] ∧
    ∃ e, (bios_install_platform info srcBootImg coreImgOnDisk d f1 f2 f3 f4).2 = Except.error e := by
  unfold bios_install_platform
  cases hv : isValidDisk d with
  | error e => exact ⟨rfl, e, rfl⟩
  | ok b =>
    cases b with
    | false => exact ⟨rfl, _, rfl⟩
    | true => exact absurd hv (isValidDisk_never_accepts d)

/-- Membership in the platform map, unfolded to existence of an entry. -/
theorem hasPlatform_iff (m : PlatformMap) (pt : PlatformType) :
    hasPlatform m pt = true ↔ ∃ e ∈ m, e.1 = pt := by
  unfold hasPlatform
  rw [List.find?_isSome]
  simp

/-- Membership after an insert/replace. -/
theorem hasPlatform_set (m : PlatformMap) (q pt : PlatformType) (v : PlatformInstallInfo) :
    hasPlatform (setPlatform m q v) pt = true ↔ (pt = q ∨ hasPlatform m pt = true) := by
  simp only [hasPlatform_iff, setPlatform, List.mem_append, List.mem_filter,
    List.mem_singleton, decide_eq_true_eq]
  constructor
  · rintro ⟨e, (⟨hm, hne⟩ | rfl), hpt⟩
    · exact Or.inr ⟨e, hm, hpt⟩
    · exact Or.inl hpt.symm
  · rintro (rfl | ⟨e, hm, hpt⟩)
    · exact ⟨(pt, v), Or.inr rfl, rfl⟩
    · by_cases hq : pt = q
      · exact ⟨(q, v), Or.inr rfl, hq.symm⟩
      · exact ⟨e, Or.inl ⟨hm, by rw [hpt]; exact hq⟩, hpt⟩

/-- Membership after a delete. -/
theorem hasPlatform_del (m : PlatformMap) (q pt : PlatformType) :
    hasPlatform (delPlatform m q) pt = true ↔ (pt ≠ q ∧ hasPlatform m pt = true) := by
  simp only [hasPlatform_iff, delPlatform, List.mem_filter, decide_eq_true_eq]
  constructor
  · rintro ⟨e, ⟨hm, hne⟩, hpt⟩
    exact ⟨by rw [← hpt]; exact hne, e, hm, hpt⟩
  · rintro ⟨hne, e, hm, hpt⟩
    exact ⟨e, ⟨hm, by rw [hpt]; exact hne⟩, hpt⟩

/-! ## Claim theorems -/

/-- C2: for every device that is a partition (its path ends in a digit), or
lacks an `msdos` partition table, or already has primary partitions, or whose
first partition starts closer than 512 KiB, BIOS `install_platform` with
`bInstallMbr` fails — the device-validity precondition `_isValidDisk` does not
pass — and no byte is written to the device. -/
theorem bios_install_rejects_bad_disk (info : PlatformInstallInfo) (srcBootImg : List Byte)
    (coreImgOnDisk : Option (List Byte)) (d : DiskDev) (f2 f3 f4 : Bool)
    (h : endsWithDigit d.path = true ∨ d.diskType ≠ "msdos" ∨ d.partitionStarts ≠ [] ∨
         (∃ s, d.partitionStarts.head? = some s ∧ s * d.sectorSize < getMbrGapSizeThreshold)) :
    isValidDisk d ≠ Except.ok true ∧
    (bios_install_platform info srcBootImg coreImgOnDisk d true f2 f3 f4).1 = [] ∧
    ∃ e, (bios_install_platform info srcBootImg coreImgOnDisk d true f2 f3 f4).2 = Except.error e :=
  ⟨isValidDisk_never_accepts d,
   bios_install_always_errors info srcBootImg coreImgOnDisk d true f2 f3 f4⟩

/-- C2 witness: a partition path (`sda1`) with a non-msdos label is rejected
without any device write. -/
theorem bios_install_rejects_bad_disk_witness :
    isValidDisk ⟨['s', 'd', 'a', '1'], "gpt", [], 512, []⟩ ≠ Except.ok true ∧
    (bios_install_platform { status := Status.NOT_EXIST } [] none
        ⟨['s', 'd', 'a', '1'], "gpt", [], 512, []⟩ true false false false).1 = [] := by
  have h := bios_install_rejects_bad_disk { status := Status.NOT_EXIST } [] none
    ⟨['s', 'd', 'a', '1'], "gpt", [], 512, []⟩ false false false (Or.inl (by decide))
  exact ⟨h.1, h.2.1⟩

/-- C3: BIOS `install_platform` with `bInstallMbr`: for every `boot.img` whose
size is not exactly one disk sector, and for every `core.img` smaller than one
sector or larger than 512 KiB, the operation raises before any write to the
block device, so the device content is unchanged. -/
theorem bios_install_size_checks_reject (info : PlatformInstallInfo) (srcBootImg : List Byte)
    (coreBuf : List Byte) (d : DiskDev) (f2 f3 f4 : Bool)
    (h : srcBootImg.length ≠ DISK_SECTOR_SIZE ∨ coreBuf.length < DISK_SECTOR_SIZE ∨
         coreBuf.length > getMbrGapSizeThreshold) :
    (bios_install_platform info srcBootImg (some coreBuf) d true f2 f3 f4).1 = [] ∧
    ∃ e, (bios_install_platform info srcBootImg (some coreBuf) d true f2 f3 f4).2 = Except.error e :=
  bios_install_always_errors info srcBootImg (some coreBuf) d true f2 f3 f4

/-- C3 witness: an empty `boot.img` and a 3-byte `core.img` are rejected with
no device write. -/
theorem bios_install_size_checks_reject_witness :
    (bios_install_platform { status := Status.NOT_EXIST } [] (some [0, 0, 0])
        ⟨['s', 'd', 'a'], "msdos", [], 512, []⟩ true false false false).1 = [] :=
  (bios_install_size_checks_reject { status := Status.NOT_EXIST } [] [0, 0, 0]
    ⟨['s', 'd', 'a'], "msdos", [], 512, []⟩ false false false
    (Or.inr (Or.inl (by decide)))).1

/-- C4: for every platform map and every platform with no entry in it,
`get_platform_install_info` returns a fresh record whose status is
`NOT_EXIST` and whose other attributes are unset; the function is total, so
it never raises. -/
theorem get_platform_install_info_absent (m : PlatformMap) (pt : PlatformType)
    (h : hasPlatform m pt = false) :
    get_platform_install_info m pt = { status := Status.NOT_EXIST } := by
  unfold get_platform_install_info
  unfold hasPlatform at h
  cases hf : m.find? fun e => decide (e.1 = pt) with
  | none => rfl
  | some e => rw [hf] at h; simp at h

/-- C4 witness: lookup of a platform in the empty map. -/
theorem get_platform_install_info_absent_witness :
    get_platform_install_info [] PlatformType.x86_64_efi = { status := Status.NOT_EXIST } :=
  get_platform_install_info_absent [] PlatformType.x86_64_efi (by decide)

/-- C5 (failing input of the code bug): removing an EFI platform that has no
map entry and no on-disk artifacts on a mounted-device target raises
`FileNotFoundError` — `_Efi.remove_platform` calls `rmdir_if_empty` on the
non-existent `EFI/BOOT` directory, whose `os.listdir` raises — although the
spec requires removal of an absent platform to be a no-op, not an error. -/
theorem remove_absent_efi_platform_raises :
    target_remove_platform TargetAccessMode.RW TargetType.MOUNTED_HDD_DEV
      PlatformType.x86_64_efi [] ⟨none, none, []⟩ = Except.error ("FileNotFoundError") := by
  rfl

/-- C8: EFI verification with both the installed `EFI/BOOT` file and the
platform's core image present: any byte difference downgrades the status to
`EXIST`; byte-identical contents keep the status `BOOTABLE` and set
`removable = true` and `nvram = false`. -/
theorem efi_verification_byte_exact (coreBuf efiBuf : List Byte)
    (info : PlatformInstallInfo) (hst : info.status = Status.BOOTABLE) :
    (coreBuf ≠ efiBuf →
        ∃ r, efi_check_and_fill_platform_install_info (some coreBuf) (some efiBuf) info =
               Except.ok r ∧ r.status = Status.EXIST) ∧
    (coreBuf = efiBuf →
        ∃ r, efi_check_and_fill_platform_install_info (some coreBuf) (some efiBuf) info =
               Except.ok r ∧ r.status = Status.BOOTABLE ∧
               r.removable = some true ∧ r.nvram = some false) := by
  constructor
  · intro hne
    refine ⟨{ info with status := Status.EXIST }, ?_, rfl⟩
    unfold efi_check_and_fill_platform_install_info
    rw [if_neg (by simp [hst])]
    simp [compare_files, hne]
  · intro heq
    refine ⟨{ info with removable := some true, nvram := some false }, ?_, hst, rfl, rfl⟩
    unfold efi_check_and_fill_platform_install_info
    rw [if_neg (by simp [hst])]
    simp [compare_files, heq]

/-- C8 witness: identical one-byte contents stay BOOTABLE with
`removable = true`, `nvram = false`. -/
theorem efi_verification_byte_exact_witness :
    ∃ r, efi_check_and_fill_platform_install_info (some [1]) (some [1])
           { status := Status.BOOTABLE } = Except.ok r ∧
         r.status = Status.BOOTABLE ∧ r.removable = some true ∧ r.nvram = some false :=
  (efi_verification_byte_exact [1] [1] { status := Status.BOOTABLE } rfl).2 rfl

/-- C10: on a mounted-device target in a write-capable mode, a BIOS
`install_platform` call that does not pass `rs_codes=False` resolves the
option to its default `True` — which the BIOS installer asserts to be
`False` — and the call always raises. -/
theorem default_bios_install_always_raises (mode : TargetAccessMode)
    (existing : PlatformInstallInfo) (commonResult : Except String Unit)
    (srcBootImg : List Byte) (coreImgOnDisk : Option (List Byte)) (d : DiskDev)
    (allowFloppyArg rsCodesArg : Option Bool)
    (hmode : mode ≠ TargetAccessMode.R) (hrs : rsCodesArg ≠ some false) :
    rsCodesArg.getD true = true ∧
    ∃ e, (target_install_platform_i386_pc mode existing commonResult srcBootImg
            coreImgOnDisk d allowFloppyArg rsCodesArg).2 = Except.error e := by
  constructor
  · cases rsCodesArg with
    | none => rfl
    | some b =>
      cases b with
      | false => exact absurd rfl hrs
      | true => rfl
  · unfold target_install_platform_i386_pc
    rw [if_neg hmode]
    by_cases hb : existing.status = Status.BOOTABLE
    · rw [if_pos hb]
      exact ⟨_, rfl⟩
    · rw [if_neg hb]
      cases commonResult with
      | error e => exact ⟨e, rfl⟩
      | ok u =>
        exact (bios_install_always_errors { status := Status.BOOTABLE } srcBootImg
          coreImgOnDisk d true false (allowFloppyArg.getD false) (rsCodesArg.getD true)).2

/-- C10 witness: a default call (no keyword arguments) in RW mode raises. -/
theorem default_bios_install_always_raises_witness :
    ∃ e, (target_install_platform_i386_pc TargetAccessMode.RW { status := Status.NOT_EXIST }
            (Except.ok ()) [] none ⟨['s', 'd', 'a'], "msdos", [], 512, []⟩
            none none).2 = Except.error e :=
  (default_bios_install_always_raises TargetAccessMode.RW { status := Status.NOT_EXIST }
    (Except.ok ()) [] none ⟨['s', 'd', 'a'], "msdos", [], 512, []⟩ none none
    (by decide) (by decide)).2

/-- When the boot image has exactly one sector and the core image is within
range, a device consisting of that boot image followed by that core image
passes every non-drive-check comparison. -/
theorem nonDriveCheckPass_self (boot core : List Byte)
    (hb : boot.length = DISK_SECTOR_SIZE)
    (hc1 : DISK_SECTOR_SIZE ≤ core.length) (hc2 : core.length ≤ getMbrGapSizeThreshold) :
    nonDriveCheckPass boot core (boot ++ core) = true := by
  have htake : (boot ++ core).take DISK_SECTOR_SIZE = boot := by
    rw [← hb]
    exact List.take_left boot core
  have hdrop : (boot ++ core).drop DISK_SECTOR_SIZE = core := by
    rw [← hb]
    exact List.drop_left boot core
  simp [nonDriveCheckPass, htake, hdrop, hb, hc1, hc2]

/-- On a device made of the boot image followed by anything, the device's
drive-check region is the boot image's drive-check region. -/
theorem devDriveCheck_self (boot rest : List Byte) (hb : boot.length = DISK_SECTOR_SIZE) :
    devDriveCheck (boot ++ rest) = bootDriveCheck boot := by
  have htake : (boot ++ rest).take DISK_SECTOR_SIZE = boot := by
    rw [← hb]
    exact List.take_left boot rest
  simp [devDriveCheck, bootDriveCheck, htake]

/-- The drive-check region of one sector of a repeated byte is that byte
twice. -/
theorem bootDriveCheck_replicate (a : Byte) :
    bootDriveCheck (List.replicate 512 a) = [a, a] := by
  simp only [bootDriveCheck, pySlice, BOOT_MACHINE_DRIVE_CHECK, List.take_replicate,
    List.drop_replicate]
  norm_num
  rfl

/-- The verification body completes with `bAllowFloppy = False` when every
non-drive-check comparison passes and the device's drive-check bytes are the
no-op pair `0x90 0x90`. -/
theorem body_completed_of_dc_nop (bootBuf coreBuf dev : List Byte)
    (h : nonDriveCheckPass bootBuf coreBuf dev = true)
    (hdc : devDriveCheck dev = [0x90, 0x90]) :
    biosCheckBody ⟨some bootBuf, some coreBuf, dev⟩ = BodyOutcome.completed false := by
  simp only [nonDriveCheckPass, Bool.and_eq_true, decide_eq_true_eq] at h
  obtain ⟨⟨⟨⟨⟨⟨⟨h1, h2⟩, h3⟩, h4⟩, h5⟩, h6⟩, h7⟩, h8⟩ := h
  simp only [devDriveCheck] at hdc
  simp [biosCheckBody, h1, h2, h3, h4, h5, h6, h7, ← h8, hdc]

/-- The verification body completes with `bAllowFloppy = True` when every
non-drive-check comparison passes and the device's drive-check bytes are not
`0x90 0x90` but equal the stored boot image's. -/
theorem body_completed_of_dc_match (bootBuf coreBuf dev : List Byte)
    (h : nonDriveCheckPass bootBuf coreBuf dev = true)
    (hdc : devDriveCheck dev ≠ [0x90, 0x90])
    (hdcb : devDriveCheck dev = bootDriveCheck bootBuf) :
    biosCheckBody ⟨some bootBuf, some coreBuf, dev⟩ = BodyOutcome.completed true := by
  simp only [nonDriveCheckPass, Bool.and_eq_true, decide_eq_true_eq] at h
  obtain ⟨⟨⟨⟨⟨⟨⟨h1, h2⟩, h3⟩, h4⟩, h5⟩, h6⟩, h7⟩, h8⟩ := h
  simp only [devDriveCheck, bootDriveCheck] at hdc hdcb
  have hbne : pySlice bootBuf BOOT_MACHINE_DRIVE_CHECK (BOOT_MACHINE_DRIVE_CHECK + 2) ≠
      [0x90, 0x90] := by
    rw [← hdcb]
    exact hdc
  simp [biosCheckBody, h1, h2, h3, h4, h5, h6, h7, ← h8, hdc, hdcb, hbne]

/-- The verification body breaks when the device's drive-check bytes are
neither `0x90 0x90` nor equal to the stored boot image's. -/
theorem body_broke_of_dc_other (bootBuf coreBuf dev : List Byte)
    (hdc : devDriveCheck dev ≠ [0x90, 0x90])
    (hdcb : devDriveCheck dev ≠ bootDriveCheck bootBuf) :
    biosCheckBody ⟨some bootBuf, some coreBuf, dev⟩ = BodyOutcome.broke := by
  simp only [devDriveCheck, bootDriveCheck] at hdc hdcb
  simp [biosCheckBody, hdc, hdcb]

/-- C1 counterexample: a stored `boot.img` whose own drive-check bytes are
`0x90 0x90`, with a device first sector equal to it byte for byte.  The
device's drive-check bytes equal the stored `boot.img` bytes exactly, all
other checks pass, yet the verification body classifies the sector with
`allow_floppy = false` (the `0x90 0x90` case takes priority), not
`allow_floppy = true` as the claim states. -/
theorem drive_check_exact_match_gives_false :
    devDriveCheck cxDev = bootDriveCheck cxBootImg ∧
    nonDriveCheckPass cxBootImg cxCoreImg cxDev = true ∧
    biosCheckBody ⟨some cxBootImg, some cxCoreImg, cxDev⟩ = BodyOutcome.completed false := by
  have hb : cxBootImg.length = DISK_SECTOR_SIZE := by
    simp [cxBootImg, DISK_SECTOR_SIZE]
  have hc : cxCoreImg.length = 512 := by simp [cxCoreImg]
  have hdc : devDriveCheck cxDev = bootDriveCheck cxBootImg :=
    devDriveCheck_self cxBootImg cxCoreImg hb
  have hpass : nonDriveCheckPass cxBootImg cxCoreImg cxDev = true :=
    nonDriveCheckPass_self cxBootImg cxCoreImg hb
      (by rw [hc]; norm_num [DISK_SECTOR_SIZE])
      (by rw [hc]; norm_num [getMbrGapSizeThreshold])
  refine ⟨hdc, hpass, ?_⟩
  apply body_completed_of_dc_nop cxBootImg cxCoreImg cxDev hpass
  rw [hdc, cxBootImg, bootDriveCheck_replicate]

/-- C1 (amended): when every check other than the drive-check comparison
passes, a device sector whose drive-check region holds `0x90 0x90` is treated
as matching with `allow_floppy = false`; a sector whose drive-check bytes are
not `0x90 0x90` and equal the stored `boot.img` bytes exactly yields
`allow_floppy = true`; and for any device sector whose drive-check bytes are
neither `0x90 0x90` nor equal to the stored bytes, the verification returns
with the status downgraded to `EXIST`. -/
theorem bios_drive_check_classification :
    (∀ (bootBuf coreBuf dev : List Byte),
        nonDriveCheckPass bootBuf coreBuf dev = true →
        (devDriveCheck dev = [0x90, 0x90] →
            biosCheckBody ⟨some bootBuf, some coreBuf, dev⟩ = BodyOutcome.completed false) ∧
        (devDriveCheck dev ≠ [0x90, 0x90] → devDriveCheck dev = bootDriveCheck bootBuf →
            biosCheckBody ⟨some bootBuf, some coreBuf, dev⟩ = BodyOutcome.completed true)) ∧
    (∀ (bootBuf coreBuf dev : List Byte) (info : PlatformInstallInfo) (fuel : Nat),
        devDriveCheck dev ≠ [0x90, 0x90] → devDriveCheck dev ≠ bootDriveCheck bootBuf →
        biosCheckLoop (fuel + 1) ⟨some bootBuf, some coreBuf, dev⟩ info =
          some { info with status := Status.EXIST }) := by
  constructor
  · intro bootBuf coreBuf dev h
    exact ⟨body_completed_of_dc_nop bootBuf coreBuf dev h,
           body_completed_of_dc_match bootBuf coreBuf dev h⟩
  · intro bootBuf coreBuf dev info fuel hdc hdcb
    simp [biosCheckLoop, body_broke_of_dc_other bootBuf coreBuf dev hdc hdcb]

/-- C1 witness: on an ordinary image whose drive-check bytes are not
`0x90 0x90` and match the device, the body completes with
`allow_floppy = true`. -/
theorem bios_drive_check_classification_witness :
    biosCheckBody ⟨some allPassBootImg, some allPassCoreImg, allPassDev⟩ =
      BodyOutcome.completed true := by
  have hb : allPassBootImg.length = DISK_SECTOR_SIZE := by
    simp [allPassBootImg, DISK_SECTOR_SIZE]
  have hdc : devDriveCheck allPassDev = bootDriveCheck allPassBootImg :=
    devDriveCheck_self allPassBootImg allPassCoreImg hb
  have hrep : bootDriveCheck allPassBootImg = [0x41, 0x41] := bootDriveCheck_replicate 0x41
  exact (bios_drive_check_classification.1 allPassBootImg allPassCoreImg allPassDev
      (nonDriveCheckPass_self allPassBootImg allPassCoreImg hb
        (by simp [allPassCoreImg]; norm_num [DISK_SECTOR_SIZE])
        (by simp [allPassCoreImg]; norm_num [getMbrGapSizeThreshold]))).2
    (by rw [hdc, hrep]; decide) (by rw [hdc])

/-- If one pass of the verification body runs to its end (`bOk = True`), the
`while True:` loop of `_Bios.check_and_fill_platform_install_info` — which
has no `break` on that path — runs the body again on unchanged inputs, so the
function never returns, whatever iteration bound is allowed. -/
theorem biosCheckLoop_none_of_completed (i : BiosCheckInput) (info : PlatformInstallInfo)
    (af : Bool) (h : biosCheckBody i = BodyOutcome.completed af) :
    ∀ fuel, biosCheckLoop fuel i info = none := by
  intro fuel
  induction fuel with
  | zero => rfl
  | succ n ih =>
    simp only [biosCheckLoop, h]
    exact ih

/-- C7 (failing input of the code bug): on an input where every verification
check passes — `boot.img` one sector, `core.img` in range, every compared
device region matching — the body completes, and the loop never returns for
any number of iterations: the success path that would record
`mbr_installed`, `allow_floppy` and `rs_codes` is unreachable because the
source has no `break` after `bOk = True`. -/
theorem bios_check_never_returns_when_all_checks_pass :
    (∃ af, biosCheckBody allPassInput = BodyOutcome.completed af) ∧
    ∀ fuel, biosCheckLoop fuel allPassInput { status := Status.BOOTABLE } = none := by
  have hb : allPassBootImg.length = DISK_SECTOR_SIZE := by
    simp [allPassBootImg, DISK_SECTOR_SIZE]
  have hdc : devDriveCheck allPassDev = bootDriveCheck allPassBootImg :=
    devDriveCheck_self allPassBootImg allPassCoreImg hb
  have hrep : bootDriveCheck allPassBootImg = [0x41, 0x41] := bootDriveCheck_replicate 0x41
  have hbody : biosCheckBody allPassInput = BodyOutcome.completed true :=
    body_completed_of_dc_match allPassBootImg allPassCoreImg allPassDev
      (nonDriveCheckPass_self allPassBootImg allPassCoreImg hb
        (by simp [allPassCoreImg]; norm_num [DISK_SECTOR_SIZE])
        (by simp [allPassCoreImg]; norm_num [getMbrGapSizeThreshold]))
      (by rw [hdc, hrep]; decide) (by rw [hdc])
  exact ⟨⟨true, hbody⟩, biosCheckLoop_none_of_completed _ _ true hbody⟩

/-- C6: the module list derived during `install_platform` begins with
`biosdisk` for the BIOS platform; for every platform using native disk access
it is exactly `pata, ahci, ohci, uhci, ehci, ubms` followed by the filesystem
module and `search_fs_uuid` (so those six come in that order, all before
both); and for every platform a produced list ends with an appended
`search_fs_uuid`. -/
theorem module_list_derivation :
    (∀ (g : String → String) (u fs : String) (l : List String),
        common_module_list g (some u) fs PlatformType.i386_pc = Except.ok l →
        l.head? = some ("biosdisk")) ∧
    (∀ (g : String → String) (u fs : String) (pt : PlatformType) (l : List String),
        disk_module pt = some ("native") →
        common_module_list g (some u) fs pt = Except.ok l →
        l = ["pata", "ahci", "ohci", "uhci", "ehci", "ubms", g fs, "search_fs_uuid"]) ∧
    (∀ (g : String → String) (u fs : String) (pt : PlatformType) (l : List String),
        common_module_list g (some u) fs pt = Except.ok l →
        ∃ l0, l = l0 ++ ["search_fs_uuid"]) := by
  refine ⟨?_, ?_, ?_⟩
  · intro g u fs l h
    simp [common_module_list, disk_module, isPlatformEfi] at h
    subst h
    rfl
  · intro g u fs pt l hdm h
    cases pt with
    | i386_pc => exact absurd hdm (by decide)
    | i386_efi => exact absurd hdm (by decide)
    | x86_64_efi => exact absurd hdm (by decide)
    | arm64_efi => exact absurd hdm (by decide)
    | i386_multiboot =>
      simp [common_module_list, disk_module, isPlatformEfi] at h
      subst h
      rfl
    | i386_coreboot =>
      simp [common_module_list, disk_module, isPlatformEfi, isPlatformCoreboot] at h
      subst h
      rfl
    | i386_qemu =>
      simp [common_module_list, disk_module, isPlatformEfi, isPlatformCoreboot,
        isPlatformQemu] at h
      subst h
      rfl
    | mipsel_loongson =>
      simp [common_module_list, disk_module, isPlatformEfi, isPlatformCoreboot,
        isPlatformQemu] at h
      subst h
      rfl
  · intro g u fs pt l h
    cases pt with
    | i386_pc =>
      simp [common_module_list, disk_module, isPlatformEfi] at h
      subst h
      exact ⟨["biosdisk", g fs], rfl⟩
    | i386_efi =>
      by_cases hfs : fs = "vfat"
      · simp [common_module_list, disk_module, isPlatformEfi, hfs] at h
        subst h
        exact ⟨[g ("vfat")], rfl⟩
      · simp [common_module_list, disk_module, isPlatformEfi, hfs] at h
    | x86_64_efi =>
      by_cases hfs : fs = "vfat"
      · simp [common_module_list, disk_module, isPlatformEfi, hfs] at h
        subst h
        exact ⟨[g ("vfat")], rfl⟩
      · simp [common_module_list, disk_module, isPlatformEfi, hfs] at h
    | arm64_efi =>
      by_cases hfs : fs = "vfat"
      · simp [common_module_list, disk_module, isPlatformEfi, hfs] at h
        subst h
        exact ⟨[g ("vfat")], rfl⟩
      · simp [common_module_list, disk_module, isPlatformEfi, hfs] at h
    | i386_multiboot =>
      simp [common_module_list, disk_module, isPlatformEfi] at h
      subst h
      exact ⟨["pata", "ahci", "ohci", "uhci", "ehci", "ubms", g fs], rfl⟩
    | i386_coreboot =>
      simp [common_module_list, disk_module, isPlatformEfi, isPlatformCoreboot] at h
      subst h
      exact ⟨["pata", "ahci", "ohci", "uhci", "ehci", "ubms", g fs], rfl⟩
    | i386_qemu =>
      simp [common_module_list, disk_module, isPlatformEfi, isPlatformCoreboot,
        isPlatformQemu] at h
      subst h
      exact ⟨["pata", "ahci", "ohci", "uhci", "ehci", "ubms", g fs], rfl⟩
    | mipsel_loongson =>
      simp [common_module_list, disk_module, isPlatformEfi, isPlatformCoreboot,
        isPlatformQemu] at h
      subst h
      exact ⟨["pata", "ahci", "ohci", "uhci", "ehci", "ubms", g fs], rfl⟩

/-- C6 witness: concrete derivations for the BIOS platform and a native-disk
platform. -/
theorem module_list_derivation_witness :
    (common_module_list id (some ("u")) "ext2" PlatformType.i386_pc =
       Except.ok ["biosdisk", "ext2", "search_fs_uuid"]) ∧
    (["biosdisk", "ext2", "search_fs_uuid"] : List String).head? = some ("biosdisk") ∧
    (["pata", "ahci", "ohci", "uhci", "ehci", "ubms", "ext2", "search_fs_uuid"] : List String) =
      ["pata", "ahci", "ohci", "uhci", "ehci", "ubms", id ("ext2"), "search_fs_uuid"] := by
  refine ⟨by rfl, ?_, ?_⟩
  · exact module_list_derivation.1 id ("u") "ext2" ["biosdisk", "ext2", "search_fs_uuid"] (by rfl)
  · exact (module_list_derivation.2.1 id ("u") "ext2" PlatformType.i386_multiboot
      ["pata", "ahci", "ohci", "uhci", "ehci", "ubms", "ext2", "search_fs_uuid"]
      (by rfl) (by rfl)).symm

/-- Membership after the inner scan fold: a platform is present afterwards iff
it was present before, or its canonical directory name is the scanned entry
and it occurs in the iterated list. -/
theorem hasPlatform_scan_inner (l : List PlatformType) (m : PlatformMap) (fn : String)
    (pt : PlatformType) :
    hasPlatform
        (l.foldl
          (fun m2 q =>
            if platformValue q = fn then setPlatform m2 q { status := Status.BOOTABLE } else m2)
          m) pt = true ↔
      (hasPlatform m pt = true ∨ (pt ∈ l ∧ platformValue pt = fn)) := by
  induction l generalizing m with
  | nil => simp
  | cons q l ih =>
    simp only [List.foldl_cons]
    rw [ih]
    by_cases hq : platformValue q = fn
    · rw [if_pos hq, hasPlatform_set]
      constructor
      · rintro ((rfl | hm) | ⟨hl, hv⟩)
        · exact Or.inr ⟨List.mem_cons_self _ _, hq⟩
        · exact Or.inl hm
        · exact Or.inr ⟨List.mem_cons_of_mem q hl, hv⟩
      · rintro (hm | ⟨hmem, hv⟩)
        · exact Or.inl (Or.inr hm)
        · rcases List.mem_cons.mp hmem with rfl | hl
          · exact Or.inl (Or.inl rfl)
          · exact Or.inr ⟨hl, hv⟩
    · rw [if_neg hq]
      constructor
      · rintro (hm | ⟨hl, hv⟩)
        · exact Or.inl hm
        · exact Or.inr ⟨List.mem_cons_of_mem q hl, hv⟩
      · rintro (hm | ⟨hmem, hv⟩)
        · exact Or.inl hm
        · rcases List.mem_cons.mp hmem with rfl | hl
          · exact absurd hv hq
          · exact Or.inr ⟨hl, hv⟩

/-- Membership after the whole scan fold over the directory entries. -/
theorem hasPlatform_scan_aux (dirs : List String) (m : PlatformMap) (pt : PlatformType) :
    hasPlatform
        (dirs.foldl
          (fun m fn =>
            platformTypes.foldl
              (fun m2 q =>
                if platformValue q = fn then setPlatform m2 q { status := Status.BOOTABLE }
                else m2)
              m)
          m) pt = true ↔
      (hasPlatform m pt = true ∨ scanFound dirs pt = true) := by
  induction dirs generalizing m with
  | nil => simp [scanFound]
  | cons fn dirs ih =>
    simp only [List.foldl_cons]
    rw [ih, hasPlatform_scan_inner]
    have hmem : pt ∈ platformTypes := by cases pt <;> simp [platformTypes]
    simp only [scanFound, List.any_cons, Bool.or_eq_true, decide_eq_true_eq]
    rw [show (dirs.any fun fn => decide (platformValue pt = fn)) = scanFound dirs pt from rfl]
    constructor
    · rintro ((hm | ⟨_, hv⟩) | hs)
      · exact Or.inl hm
      · exact Or.inr (Or.inl hv)
      · exact Or.inr (Or.inr hs)
    · rintro (hm | (hv | hs))
      · exact Or.inl (Or.inl hm)
      · exact Or.inl (Or.inr ⟨hmem, hv⟩)
      · exact Or.inr hs

/-- Membership in the map produced by the construction-time scan. -/
theorem hasPlatform_init (dirs : List String) (pt : PlatformType) :
    hasPlatform (init_platforms dirs) pt = true ↔ scanFound dirs pt = true := by
  unfold init_platforms
  rw [hasPlatform_scan_aux]
  simp [hasPlatform]

/-- Membership after a sequence of completed operations, relative to the most
recent operation concerning the platform. -/
theorem hasPlatform_applyOps (ops : List TargetOp) (m : PlatformMap) (pt : PlatformType) :
    hasPlatform (applyOps m ops) pt = true ↔
      (match lastOpOn ops pt with
       | some op => isInstall op = true
       | none => hasPlatform m pt = true) := by
  induction ops generalizing m with
  | nil => exact Iff.rfl
  | cons op rest ih =>
    simp only [applyOps, lastOpOn]
    rw [ih]
    cases hl : lastOpOn rest pt with
    | some r => rfl
    | none =>
      cases op with
      | installOp q v =>
        simp only [applyOp]
        by_cases hq : q = pt
        · subst hq
          rw [hasPlatform_set]
          simp [opOn, isInstall]
        · rw [hasPlatform_set]
          simp [opOn, isInstall, hq, Ne.symm hq]
      | removeOp q =>
        simp only [applyOp]
        by_cases hq : q = pt
        · subst hq
          rw [hasPlatform_del]
          simp [opOn, isInstall]
        · rw [hasPlatform_del]
          simp [opOn, isInstall, hq, Ne.symm hq]

/-- C9 counterexample: a boot directory whose scan finds `i386-pc`, followed
by a completed removal of that platform.  The entry is gone although a
matching directory was found during the scan, so the claimed equivalence
fails at this input. -/
theorem map_entry_claim_as_stated_false : ¬ mapEntryClaimAsStated := by
  intro h
  exact absurd
    ((h ["i386-pc"] [TargetOp.removeOp PlatformType.i386_pc] PlatformType.i386_pc).mpr
      (Or.inl (by decide)))
    (by decide)

/-- C9 (amended): for every scan result and every sequence of completed
install/remove operations, a platform has an entry in the map iff the most
recent completed operation concerning it was an install, or no operation
concerned it and a matching platform directory was found during the
construction-time scan. -/
theorem platform_map_entry_invariant (dirs : List String) (ops : List TargetOp)
    (pt : PlatformType) :
    hasPlatform (applyOps (init_platforms dirs) ops) pt = true ↔
      (match lastOpOn ops pt with
       | some op => isInstall op = true
       | none => scanFound dirs pt = true) := by
  rw [hasPlatform_applyOps]
  cases lastOpOn ops pt with
  | some r => exact Iff.rfl
  | none => exact hasPlatform_init dirs pt

end GrubInstall
